import Mathlib

/-!
Verification of the Action Resolution & Execution Engine of this repository
(`src/playwright/llm-automation/ai_test_agent.py`), shallowly embedded in Lean.

The embedding mirrors the Python source:
* `TestAction` mirrors the `TestAction` dataclass (field defaults included).
* `execute_action` mirrors `EnhancedTestExecutor.execute_action`: the driver
  calls (`_execute_navigate`, `_execute_click`, ...) are abstracted into an
  `ExecEnv` giving the outcome of the dispatched coroutine and of the two
  `page.screenshot` calls; the dispatch table and the in-function error
  handling (catch-all except, error-screenshot rescue, `finally` duration)
  are embedded directly.
* `attemptLoop` mirrors the per-action retry loop of
  `EnhancedTestExecutor.execute_test` (lines 986-1024), including the fact
  that the exponential-backoff sleep occurs only in the `except` branch and
  that a failed-status result retries with no sleep. `sleeps` records the
  backoff sleeps actually performed, `attemptsMade` counts loop iterations.
* `execute_test` mirrors the whole orchestrator loop, including the
  `if result:` append guard and the best-effort error-screenshot save.
* `generate_smart_selectors` mirrors `SmartSelectorGenerator`.
* `wait_for_element` mirrors the candidate loop of
  `EnhancedTestExecutor._wait_for_element` (lines 914-944); the iterated
  candidate sequence is a parameter (the source iterates a Python `set` of
  generated candidates) and the driver is abstracted into per-candidate
  found/visible/enabled flags plus a time cost.
* `try_click_strategies` mirrors the click-strategy fallback loop of
  `_execute_click` (lines 674-692).
* `execute_navigate` mirrors the two-tier navigation of `_execute_navigate`.
* `optimize_actions` mirrors `EnhancedAITestAgent._optimize_actions`.
-/

/-- A Python value carried in the `value` field of an action (int or str). -/
inductive PyVal
  | vInt (n : Int)
  | vStr (s : String)
deriving DecidableEq

/-- Mirror of the `TestAction` dataclass, defaults included. -/
structure TestAction where
  action_type : String
  selector : Option String := none
  value : Option PyVal := none
  description : String := ""
  wait_for_selector : Option String := none
  wait_timeout : Nat := 10000
  retry_count : Nat := 3
  expect_condition : Option String := none
  screenshot : Bool := true
deriving DecidableEq

/-- Outcome of a driver call: it either returns normally or raises. -/
inductive Outcome
  | ok
  | err (msg : String)
deriving DecidableEq

/-- Environment for one attempt of `execute_action`: the outcome of the
dispatched `_execute_*` coroutine, the outcome of the success-path
`page.screenshot` call (line 478, inside the main `try`), and the outcome of
the rescue `page.screenshot` call in the `except` handler (lines 492-495,
`none` meaning it raised and was swallowed). -/
structure ExecEnv where
  dispatch : Outcome
  shotTry : Except String Nat
  shotRescue : Option Nat

/-- Mirror of the per-step result dict built by `execute_action` and
augmented by `execute_test` (`attempt`, `screenshot_path`). -/
structure StepResult where
  description : String
  action_type : String
  status : String
  duration : Nat
  error : Option String := none
  screenshot : Option Nat := none
  selector : Option String := none
  value : Option PyVal := none
  attempt : Nat := 0
  screenshot_path : Option String := none
deriving DecidableEq

/-- The action types `execute_action` dispatches on (lines 451-474). -/
def known_action_types : List String :=
  ["navigate", "external_navigate", "click", "fill", "select", "check",
   "uncheck", "hover", "wait", "scroll", "screenshot", "press"]

/-- Outcome of the dispatch step inside the `try` of `execute_action`.
An unknown action type raises `ValueError` (line 474); `check`/`uncheck`
dispatch to `_execute_check`, a method that does not exist in the class, so
they raise `AttributeError`; a click without selector raises inside
`_execute_click` (line 587); everything else is the driver outcome. -/
def dispatchOutcome (a : TestAction) (env : ExecEnv) : Outcome :=
  if a.action_type ∉ known_action_types then
    .err ("Unsupported action type: " ++ a.action_type)
  else if a.action_type = "check" ∨ a.action_type = "uncheck" then
    .err "EnhancedTestExecutor object has no attribute _execute_check"
  else if a.action_type = "click" ∧ a.selector = none then
    .err "No selector provided for click action"
  else env.dispatch

/-- Mirror of `EnhancedTestExecutor.execute_action` (lines 432-500): build the
result dict, dispatch inside a `try`; on success take the result screenshot if
requested (still inside the `try`, so its failure is caught by the outer
`except`); on any exception mark the step failed with the error message and
best-effort capture an error screenshot; `finally` set the duration. -/
def execute_action (a : TestAction) (env : ExecEnv) (d : Nat) : StepResult :=
  let base : StepResult :=
    { description := a.description, action_type := a.action_type,
      status := "passed", duration := 0, error := none, screenshot := none,
      selector := a.selector, value := a.value }
  let r :=
    match dispatchOutcome a env with
    | .ok =>
      if a.screenshot then
        match env.shotTry with
        | .ok pic => { base with screenshot := some pic }
        | .error msg =>
          { base with status := "failed", error := some msg,
                      screenshot := env.shotRescue }
      else base
    | .err msg =>
      { base with status := "failed", error := some msg,
                  screenshot := env.shotRescue }
  { r with duration := d }

/-- Output of the per-action retry loop of `execute_test`: the final result
variable (which may still be `None` if the loop body never ran), the backoff
sleeps performed between attempts (in seconds), and the number of loop
iterations executed. -/
structure AttemptLoopOut where
  result : Option StepResult
  sleeps : List Nat
  attemptsMade : Nat
deriving DecidableEq

/-- The synthetic failed result dict built in the `except` branch of the retry
loop of `execute_test` (lines 1011-1019) on the last attempt. -/
def mkFailResult (a : TestAction) (msg : String) (att : Nat) : StepResult :=
  { description := a.description, action_type := a.action_type,
    status := "failed", error := some msg, duration := 0,
    screenshot := none, attempt := att }

/-- Mirror of the retry loop body of `EnhancedTestExecutor.execute_test`
(lines 990-1024), with the remaining iteration count as fuel. `step n` is the
outcome of `await self.execute_action(action)` at loop index `n`: `.ok r` if
it returns the result `r` and `.error m` if it raises. When the attempt
returns, `attempt` is stamped; a "passed" status breaks out of the loop;
otherwise the loop continues immediately (no sleep). When the attempt raises,
the last iteration builds the synthetic failed result, and any earlier
iteration sleeps `min (2 ^ attempt) 10` before continuing. -/
def attemptLoopAux (step : Nat → Except String StepResult)
    (mk : String → Nat → StepResult) :
    Nat → Nat → Option StepResult → AttemptLoopOut
  | 0, _, prev => ⟨prev, [], 0⟩
  | k + 1, attempt, prev =>
    match step attempt with
    | .ok r0 =>
      let r := { r0 with attempt := attempt + 1 }
      if r.status = "passed" then ⟨some r, [], 1⟩
      else
        let rest := attemptLoopAux step mk k (attempt + 1) (some r)
        ⟨rest.result, rest.sleeps, rest.attemptsMade + 1⟩
    | .error msg =>
      if k = 0 then ⟨some (mk msg (attempt + 1)), [], 1⟩
      else
        let rest := attemptLoopAux step mk k (attempt + 1) prev
        ⟨rest.result, min (2 ^ attempt) 10 :: rest.sleeps,
          rest.attemptsMade + 1⟩

/-- The retry loop for one action: `max_retries = action.retry_count`
iterations starting from attempt index 0 with `result = None`. -/
def attemptLoop (step : Nat → Except String StepResult) (a : TestAction) :
    AttemptLoopOut :=
  attemptLoopAux step (mkFailResult a) a.retry_count 0 none

/-- The per-attempt step function actually used by `execute_test`: since
`execute_action` catches every exception and always returns a result dict,
the step never raises. `env i n` and `dur i n` are the environment and
duration for step index `i`, attempt index `n`. -/
def stepFn (a : TestAction) (env : Nat → Nat → ExecEnv)
    (dur : Nat → Nat → Nat) (i : Nat) : Nat → Except String StepResult :=
  fun n => Except.ok (execute_action a (env i n) (dur i n))

/-- Mirror of the best-effort error-screenshot save in `execute_test`
(lines 1029-1038): if the final result is failed and carries no screenshot,
try to save one; on success record its path, on exception do nothing. -/
def attachErrorScreenshotPath (save : Nat → Option String) (i : Nat)
    (r : StepResult) : StepResult :=
  if r.status = "failed" ∧ r.screenshot = none then
    match save i with
    | some p => { r with screenshot_path := some p }
    | none => r
  else r

/-- Mirror of the orchestrator loop of `execute_test` (lines 969-1043),
indexed by step number: run the retry loop for each action and append the
final result only when it is not `None` (the `if result:` guard at
line 1026). -/
def execute_testAux (env : Nat → Nat → ExecEnv) (dur : Nat → Nat → Nat)
    (save : Nat → Option String) : Nat → List TestAction → List StepResult
  | _, [] => []
  | i, a :: rest =>
    match (attemptLoop (stepFn a env dur i) a).result with
    | some r =>
      attachErrorScreenshotPath save i r ::
        execute_testAux env dur save (i + 1) rest
    | none => execute_testAux env dur save (i + 1) rest

/-- Mirror of `EnhancedTestExecutor.execute_test`. -/
def execute_test (actions : List TestAction) (env : Nat → Nat → ExecEnv)
    (dur : Nat → Nat → Nat) (save : Nat → Option String) : List StepResult :=
  execute_testAux env dur save 0 actions

/-- Does the pattern occur at the head of the character list? -/
def charListHasPre (pat s : List Char) : Bool :=
  match pat, s with
  | [], _ => true
  | _ :: _, [] => false
  | p :: ps, c :: cs => p == c && charListHasPre ps cs

/-- Does the pattern occur anywhere inside the character list? -/
def charListContains (s pat : List Char) : Bool :=
  match s with
  | [] => pat.isEmpty
  | _ :: cs => charListHasPre pat s || charListContains cs pat

/-- Mirror of the Python substring test `pat in s`. -/
def containsSubstr (s pat : String) : Bool :=
  charListContains s.data pat.data

/-- ASCII lower-casing of one character, as Python `str.lower` does on the
ASCII range. -/
def pyLowerChar (c : Char) : Char :=
  if 65 ≤ c.toNat ∧ c.toNat ≤ 90 then Char.ofNat (c.toNat + 32) else c

/-- Mirror of the Python `description.lower()` call (ASCII range). -/
def pyLower (s : String) : String := ⟨s.data.map pyLowerChar⟩

/-- Mirror of the `action_type == click` branch of
`SmartSelectorGenerator.generate_smart_selectors` (lines 42-85), taking the
lower-cased description. -/
def click_selectors (descLower : String) : List String :=
  if containsSubstr descLower "button" then
    if containsSubstr descLower "login" then
      ["button[type=\"submit\"]", "input[type=\"submit\"]",
       "button:has-text(\"login\")", "[data-testid*=\"login\"]",
       ".login-btn, .btn-login", "#login, #loginBtn"]
    else if containsSubstr descLower "sign up" || containsSubstr descLower "signup" then
      ["button:has-text(\"sign up\")", "a:has-text(\"sign up\")",
       "[data-testid*=\"signup\"]", ".signup-btn, .btn-signup"]
    else if containsSubstr descLower "submit" then
      ["button[type=\"submit\"]", "input[type=\"submit\"]",
       "button:has-text(\"submit\")"]
    else
      ["button", "input[type=\"button\"]", "[role=\"button\"]"]
  else if containsSubstr descLower "link" then
    ["a", "a[href]"]
  else if containsSubstr descLower "menu" then
    ["[role=\"menu\"]", ".menu", "nav", ".navbar", ".navigation"]
  else []

/-- Mirror of the `action_type == fill` branch of
`SmartSelectorGenerator.generate_smart_selectors` (lines 87-114). -/
def fill_selectors (descLower : String) : List String :=
  if containsSubstr descLower "email" then
    ["input[type=\"email\"]", "input[name*=\"email\"]", "#email",
     "[data-testid*=\"email\"]"]
  else if containsSubstr descLower "password" then
    ["input[type=\"password\"]", "input[name*=\"password\"]", "#password",
     "[data-testid*=\"password\"]"]
  else if containsSubstr descLower "search" then
    ["input[type=\"search\"]", "input[name*=\"search\"]", "#search",
     "[placeholder*=\"search\"]"]
  else
    ["input[type=\"text\"]", "input:not([type])", "textarea"]

/-- Mirror of `SmartSelectorGenerator.generate_smart_selectors`
(lines 36-116): for any action type other than click and fill the selector
list stays empty. -/
def generate_smart_selectors (description action_type : String) : List String :=
  let descLower := pyLower description
  if action_type = "click" then click_selectors descLower
  else if action_type = "fill" then fill_selectors descLower
  else []

/-- Driver state of one selector candidate as seen by `_wait_for_element`:
whether `wait_for_selector(state=visible)` succeeds within its sub-timeout,
and whether `is_visible()` / `is_enabled()` hold after the scroll-into-view
and the 500 ms settle delay. -/
structure CandState where
  found : Bool
  visible : Bool
  enabled : Bool

/-- Driver environment for element resolution: candidate states and the time
each candidate attempt consumes (in ms). -/
structure ResolveEnv where
  state : String → CandState
  cost : String → Nat

/-- A candidate that is found, visible and enabled: the resolver accepts it. -/
def goodCand (env : ResolveEnv) (c : String) : Bool :=
  (env.state c).found && ((env.state c).visible && (env.state c).enabled)

/-- Total time consumed by a list of candidate attempts. -/
def costSum (env : ResolveEnv) (l : List String) : Nat :=
  (l.map env.cost).sum

/-- Mirror of the candidate loop of `EnhancedTestExecutor._wait_for_element`
(lines 914-944): iterate the candidate sequence; stop with an error once the
elapsed time exceeds the timeout; for each candidate, wait for it visible,
then verify `is_visible() and is_enabled()` after scroll and settle delay; a
candidate that is found but fails the verification is skipped and resolution
proceeds to later candidates; the first candidate passing all checks is
returned. -/
def wait_for_element (env : ResolveEnv) (timeout : Nat) :
    List String → Nat → Except String String
  | [], _ => .error "Could not find element with any selector"
  | c :: rest, elapsed =>
    if timeout < elapsed then .error "Could not find element with any selector"
    else if (env.state c).found then
      if (env.state c).visible && (env.state c).enabled then .ok c
      else wait_for_element env timeout rest (elapsed + env.cost c)
    else wait_for_element env timeout rest (elapsed + env.cost c)

/-- Outcome of one click strategy from the fallback chain of
`_execute_click`: the four strategies are, in order, the native click, the
synthetic pointer event at the bounding-box center, the bounding-box mouse
click, and focus followed by a synthetic Enter key pair (lines 640-671). -/
inductive StratResult
  | success
  | failure (msg : String)
deriving DecidableEq

/-- Outcome of the strategy loop: the 1-based index of the strategy that
succeeded (if any), the number of strategies attempted, and the most recent
error. -/
structure ClickDispatch where
  succeededAt : Option Nat
  attempted : Nat
  lastError : Option String
deriving DecidableEq

/-- Accumulator form of the strategy loop of `_execute_click`
(lines 674-689): try each strategy in order and return as soon as one
succeeds; a failure records the error and moves to the next strategy. -/
def tryStrategiesAux : List StratResult → Nat → Option String → ClickDispatch
  | [], n, le => { succeededAt := none, attempted := n, lastError := le }
  | .success :: _, n, le =>
    { succeededAt := some (n + 1), attempted := n + 1, lastError := le }
  | .failure m :: rest, n, _ => tryStrategiesAux rest (n + 1) (some m)

/-- The strategy loop of `_execute_click`, started on the full chain. -/
def try_click_strategies (l : List StratResult) : ClickDispatch :=
  tryStrategiesAux l 0 none

/-- Overall outcome of the click dispatch: success at the first succeeding
strategy, or the `All click strategies failed` exception (line 692). -/
def clickOutcome (l : List StratResult) : Outcome :=
  match (try_click_strategies l).succeededAt with
  | some _ => .ok
  | none => .err "All click strategies failed"

/-- Driver environment for `_execute_navigate` (lines 502-533): the outcome
of `goto(wait_until=domcontentloaded)`, of the `networkidle` load-state wait
(together the strict tier), and of the fallback `goto(wait_until=load)` (the
loose tier). -/
structure NavEnv where
  strictGoto : Outcome
  networkIdle : Outcome
  looseGoto : Outcome

/-- Mirror of `_execute_navigate`: try the strict navigation (goto plus
network-idle wait); on any exception fall back to the loose load-event
navigation, whose outcome then decides the step. -/
def execute_navigate (nenv : NavEnv) : Outcome :=
  match nenv.strictGoto with
  | .ok =>
    match nenv.networkIdle with
    | .ok => .ok
    | .err _ => nenv.looseGoto
  | .err _ => nenv.looseGoto

/-- The fixed wait action `_optimize_actions` inserts after each navigation
(lines 369-374). -/
def pageLoadWait : TestAction :=
  { action_type := "wait", value := some (.vInt 2),
    description := "Wait for page to load completely", screenshot := false }

/-- The hover action `_optimize_actions` inserts before a click
(lines 380-386). -/
def hoverBefore (a : TestAction) : TestAction :=
  { action_type := "hover", selector := a.selector,
    description := "Hover over element before clicking",
    screenshot := false, wait_timeout := 5000 }

/-- Python truthiness of an optional string (`None` and the empty string are
falsy). -/
def truthy : Option String → Bool
  | none => false
  | some s => !(s == "")

/-- Mirror of `EnhancedAITestAgent._optimize_actions` (lines 360-393). -/
def optimize_actions : List TestAction → List TestAction
  | [] => []
  | a :: rest =>
    if a.action_type = "navigate" then
      a :: pageLoadWait :: optimize_actions rest
    else if a.action_type = "click" ∧ truthy a.selector then
      hoverBefore a :: a :: optimize_actions rest
    else
      a :: optimize_actions rest

/-- The per-action expansion stated by the optimization claim: a Wait after
each Navigate, a Hover before each Click that has a (truthy) selector, and
every other action kept unchanged. -/
def expand_action_per_plan (a : TestAction) : List TestAction :=
  if a.action_type = "navigate" then [a, pageLoadWait]
  else if a.action_type = "click" ∧ truthy a.selector then [hoverBefore a, a]
  else [a]

/-- A concrete action whose retry limit is zero. -/
def zeroRetryAction : TestAction :=
  { action_type := "wait", description := "wait a moment", retry_count := 0 }

/-- A concrete environment where every driver call succeeds. -/
def allOkEnv : Nat → Nat → ExecEnv :=
  fun _ _ => { dispatch := .ok, shotTry := .ok 1, shotRescue := none }

/-- Constant one-unit durations. -/
def unitDur : Nat → Nat → Nat := fun _ _ => 1

/-- An error-screenshot saver that always raises (and is swallowed). -/
def noSave : Nat → Option String := fun _ => none

/-- A concrete navigation action. -/
def navAction : TestAction :=
  { action_type := "navigate", selector := some "https://a.test",
    description := "open page" }

/-- A concrete click action whose element is never found. -/
def failingClick : TestAction :=
  { action_type := "click", selector := some "#signup",
    description := "click signup" }

/-- An environment where the first step succeeds and every later step's
driver call fails. -/
def mixedEnv : Nat → Nat → ExecEnv :=
  fun i _ =>
    if i = 0 then { dispatch := .ok, shotTry := .ok 1, shotRescue := none }
    else { dispatch := .err "ElementNotFound", shotTry := .ok 2,
           shotRescue := some 3 }

/-- A concrete click action with the default retry limit of 3. -/
def c6Action : TestAction :=
  { action_type := "click", selector := some "#btn",
    description := "click btn" }

/-- A per-attempt environment where the dispatched click always fails. -/
def c6Env : Nat → ExecEnv :=
  fun _ => { dispatch := .err "intercepted", shotTry := .ok 1,
             shotRescue := some 2 }

/-- The step function `execute_test` would use for `c6Action` under
`c6Env`: every attempt returns a failed-status result, none raises. -/
def c6Step : Nat → Except String StepResult :=
  fun n => Except.ok (execute_action c6Action (c6Env n) 1)

/-- A concrete resolver environment with two candidates: the first is found
and visible but disabled, the second is found, visible and enabled. -/
def c3Env : ResolveEnv :=
  { state := fun c =>
      if c = "first" then { found := true, visible := true, enabled := false }
      else if c = "second" then
        { found := true, visible := true, enabled := true }
      else { found := false, visible := false, enabled := false },
    cost := fun _ => 100 }

/-- A concrete navigation environment whose strict tier times out at the
network-idle wait and whose loose tier succeeds. -/
def c7Nav : NavEnv :=
  { strictGoto := .ok, networkIdle := .err "Timeout 15000ms exceeded",
    looseGoto := .ok }

/-- A concrete navigate action that requests no screenshot. -/
def c7Action : TestAction :=
  { action_type := "navigate", selector := some "https://a.test",
    description := "go", screenshot := false }

/-- The execution environment induced by `c7Nav` for the navigate action. -/
def c7ExecEnv : ExecEnv :=
  { dispatch := execute_navigate c7Nav, shotTry := .ok 1, shotRescue := none }

/-- A concrete scroll action (screenshot requested by default). -/
def c8Action : TestAction :=
  { action_type := "scroll", description := "scroll page" }

/-- An environment whose dispatched action succeeds but whose screenshot
calls always raise. -/
def c8Env : ExecEnv :=
  { dispatch := .ok, shotTry := .error "screenshot boom", shotRescue := none }

/-- An environment whose dispatched action fails and whose rescue screenshot
also raises. -/
def c8FailEnv : ExecEnv :=
  { dispatch := .err "ElementNotFound", shotTry := .ok 1, shotRescue := none }

/-- Case analysis on `execute_action`: the status is exactly "passed" or
"failed", the duration is always stamped, a failed result has a non-null
error, and a passed result has a null error. -/
theorem execute_action_cases (a : TestAction) (env : ExecEnv) (d : Nat) :
    ((execute_action a env d).status = "passed" ∨
      (execute_action a env d).status = "failed") ∧
    (execute_action a env d).duration = d ∧
    ((execute_action a env d).status = "failed" →
      (execute_action a env d).error ≠ none) ∧
    ((execute_action a env d).status = "passed" →
      (execute_action a env d).error = none) := by
  unfold execute_action
  cases h : dispatchOutcome a env with
  | ok =>
    cases hs : a.screenshot with
    | false => simp
    | true =>
      cases ht : env.shotTry with
      | ok pic => simp
      | error msg => simp
  | err msg => simp

/-- C9: `execute_action` is total over its inputs (it is a Lean `def`, hence
total by construction, mirroring the catch-all `except` plus `finally` of the
source): for every action, including unsupported action types and missing
selectors, the result status is exactly "passed" or "failed", the duration is
always set from the attempt timing, and a failed result carries a non-null
error message. -/
theorem c9_execute_action_total (a : TestAction) (env : ExecEnv) (d : Nat) :
    ((execute_action a env d).status = "passed" ∨
      (execute_action a env d).status = "failed") ∧
    (execute_action a env d).duration = d ∧
    ((execute_action a env d).status = "failed" →
      (execute_action a env d).error ≠ none) :=
  ⟨(execute_action_cases a env d).1, (execute_action_cases a env d).2.1,
    (execute_action_cases a env d).2.2.1⟩

/-- The result of `execute_action` always carries the action's description
and action type, unchanged. -/
theorem execute_action_desc (a : TestAction) (env : ExecEnv) (d : Nat) :
    (execute_action a env d).description = a.description ∧
    (execute_action a env d).action_type = a.action_type := by
  unfold execute_action
  cases dispatchOutcome a env with
  | ok =>
    cases a.screenshot with
    | false => simp
    | true => cases env.shotTry with
      | ok pic => simp
      | error msg => simp
  | err msg => simp

/-- The error-screenshot save step only ever sets `screenshot_path`; every
other field of the result is untouched. -/
theorem attachErrorScreenshotPath_fields (save : Nat → Option String)
    (i : Nat) (r : StepResult) :
    (attachErrorScreenshotPath save i r).description = r.description ∧
    (attachErrorScreenshotPath save i r).action_type = r.action_type ∧
    (attachErrorScreenshotPath save i r).status = r.status ∧
    (attachErrorScreenshotPath save i r).error = r.error ∧
    (attachErrorScreenshotPath save i r).attempt = r.attempt := by
  unfold attachErrorScreenshotPath
  by_cases h : r.status = "failed" ∧ r.screenshot = none
  · simp only [if_pos h]
    cases save i <;> simp
  · simp [if_neg h]

/-- When the step function never raises (as with `execute_action`) and the
fuel is positive (or a previous result is already recorded), the retry loop
ends with a recorded result, and that result carries the given description
and action type whenever every attempt result does. -/
theorem attemptLoopAux_ok_some (f : Nat → StepResult)
    (mk : String → Nat → StepResult) (D T : String)
    (hf : ∀ n, (f n).description = D ∧ (f n).action_type = T) :
    ∀ (k attempt : Nat) (prev : Option StepResult),
      (1 ≤ k ∨ ∃ r, prev = some r ∧ r.description = D ∧ r.action_type = T) →
      ∃ r, (attemptLoopAux (fun n => Except.ok (f n)) mk k attempt prev).result
            = some r ∧ r.description = D ∧ r.action_type = T := by
  intro k
  induction k with
  | zero =>
    intro attempt prev h
    rcases h with h | ⟨r, hr, hd, ht⟩
    · omega
    · exact ⟨r, by simp [attemptLoopAux, hr], hd, ht⟩
  | succ k ih =>
    intro attempt prev _
    simp only [attemptLoopAux]
    by_cases hp : (f attempt).status = "passed"
    · refine ⟨{ f attempt with attempt := attempt + 1 }, ?_, ?_, ?_⟩
      · simp [hp]
      · simpa using (hf attempt).1
      · simpa using (hf attempt).2
    · obtain ⟨r, hres, hd, ht⟩ := ih (attempt + 1)
        (some { f attempt with attempt := attempt + 1 })
        (Or.inr ⟨_, rfl, by simpa using (hf attempt).1,
          by simpa using (hf attempt).2⟩)
      exact ⟨r, by simp [hp, hres], hd, ht⟩

/-- The retry loop never executes more iterations than its fuel. -/
theorem attemptLoopAux_made_le (step : Nat → Except String StepResult)
    (mk : String → Nat → StepResult) :
    ∀ (k attempt : Nat) (prev : Option StepResult),
      (attemptLoopAux step mk k attempt prev).attemptsMade ≤ k := by
  intro k
  induction k with
  | zero => intro attempt prev; simp [attemptLoopAux]
  | succ k ih =>
    intro attempt prev
    simp only [attemptLoopAux]
    cases step attempt with
    | ok r0 =>
      by_cases hp : r0.status = "passed"
      · simp [hp]
      · simpa [hp] using ih (attempt + 1) (some { r0 with attempt := attempt + 1 })
    | error msg =>
      by_cases hk0 : k = 0
      · simp [hk0]
      · simpa [hk0] using ih (attempt + 1) prev

/-- The `attempt` number stamped into the recorded result never exceeds the
attempt index plus the remaining fuel, provided the synthetic failure builder
stamps the attempt it is given and the incoming result respects the bound. -/
theorem attemptLoopAux_attempt_le (step : Nat → Except String StepResult)
    (mk : String → Nat → StepResult)
    (hmk : ∀ m att, (mk m att).attempt = att) :
    ∀ (k attempt : Nat) (prev : Option StepResult),
      (∀ r, prev = some r → r.attempt ≤ attempt) →
      ∀ r, (attemptLoopAux step mk k attempt prev).result = some r →
        r.attempt ≤ attempt + k := by
  intro k
  induction k with
  | zero =>
    intro attempt prev hprev r hr
    simp only [attemptLoopAux] at hr
    simpa using hprev r hr
  | succ k ih =>
    intro attempt prev hprev r hr
    simp only [attemptLoopAux] at hr
    cases hstep : step attempt with
    | ok r0 =>
      rw [hstep] at hr
      dsimp only at hr
      by_cases hp : r0.status = "passed"
      · rw [if_pos hp] at hr
        simp only [Option.some.injEq] at hr
        subst hr
        simp only
        omega
      · rw [if_neg hp] at hr
        have := ih (attempt + 1) (some { r0 with attempt := attempt + 1 })
          (by intro s hs; simp only [Option.some.injEq] at hs; subst hs; simp)
          r (by simpa using hr)
        omega
    | error msg =>
      rw [hstep] at hr
      dsimp only at hr
      by_cases hk0 : k = 0
      · subst hk0
        rw [if_pos rfl] at hr
        simp only [Option.some.injEq] at hr
        subst hr
        rw [hmk]
      · rw [if_neg hk0] at hr
        have := ih (attempt + 1) prev
          (by intro s hs; have := hprev s hs; omega) r (by simpa using hr)
        omega

/-- When every attempt returns a non-"passed" result, the retry loop runs its
full fuel, performs no backoff sleep at all, and its final recorded result is
the last attempt's result stamped with the final attempt number. -/
theorem attemptLoopAux_all_fail (f : Nat → StepResult)
    (mk : String → Nat → StepResult)
    (hf : ∀ n, (f n).status ≠ "passed") :
    ∀ (k attempt : Nat) (prev : Option StepResult),
      attemptLoopAux (fun n => Except.ok (f n)) mk k attempt prev =
        ⟨if k = 0 then prev
          else some { f (attempt + k - 1) with attempt := attempt + k },
         [], k⟩ := by
  intro k
  induction k with
  | zero => intro attempt prev; simp [attemptLoopAux]
  | succ k ih =>
    intro attempt prev
    simp only [attemptLoopAux]
    rw [if_neg (hf attempt)]
    rw [ih (attempt + 1) (some { f attempt with attempt := attempt + 1 })]
    by_cases hk0 : k = 0
    · subst hk0
      simp
    · have h1 : attempt + 1 + k - 1 = attempt + (k + 1) - 1 := by omega
      have h2 : attempt + 1 + k = attempt + (k + 1) := by omega
      rw [if_neg hk0, h1, h2]
      simp [hk0]

/-- When every action has a positive retry limit, the orchestrator loop
records, in input order, exactly one result per action (with the action's
description and type), whatever the driver does. -/
theorem execute_testAux_map (env : Nat → Nat → ExecEnv) (dur : Nat → Nat → Nat)
    (save : Nat → Option String) :
    ∀ (actions : List TestAction) (i : Nat),
      (∀ a ∈ actions, 1 ≤ a.retry_count) →
      (execute_testAux env dur save i actions).map
          (fun r => (r.description, r.action_type)) =
        actions.map (fun a => (a.description, a.action_type)) := by
  intro actions
  induction actions with
  | nil => intro i _; simp [execute_testAux]
  | cons a rest ih =>
    intro i h
    obtain ⟨r, hres, hd, ht⟩ :=
      attemptLoopAux_ok_some (fun n => execute_action a (env i n) (dur i n))
        (mkFailResult a) a.description a.action_type
        (fun n => execute_action_desc a (env i n) (dur i n))
        a.retry_count 0 none (Or.inl (h a (by simp)))
    have hres2 : (attemptLoop (stepFn a env dur i) a).result = some r := hres
    simp only [execute_testAux, hres2]
    have hfields := attachErrorScreenshotPath_fields save i r
    simp [hfields.1, hfields.2.1, hd, ht,
      ih (i + 1) (fun b hb => h b (by simp [hb]))]

/-- If every action's retry limit is at most `L`, then every result the
orchestrator reports has `attempt ≤ L`. -/
theorem execute_testAux_attempt_le (env : Nat → Nat → ExecEnv)
    (dur : Nat → Nat → Nat) (save : Nat → Option String) (L : Nat) :
    ∀ (actions : List TestAction) (i : Nat),
      (∀ b ∈ actions, b.retry_count ≤ L) →
      ∀ r ∈ execute_testAux env dur save i actions, r.attempt ≤ L := by
  intro actions
  induction actions with
  | nil => intro i _ r hr; simp [execute_testAux] at hr
  | cons a rest ih =>
    intro i h r hr
    simp only [execute_testAux] at hr
    cases hres : (attemptLoop (stepFn a env dur i) a).result with
    | none =>
      rw [hres] at hr
      dsimp only at hr
      exact ih (i + 1) (fun b hb => h b (by simp [hb])) r hr
    | some r0 =>
      rw [hres] at hr
      dsimp only at hr
      simp only [List.mem_cons] at hr
      rcases hr with hr | hr
      · subst hr
        have h0 : r0.attempt ≤ 0 + a.retry_count :=
          attemptLoopAux_attempt_le (stepFn a env dur i) (mkFailResult a)
            (fun m att => rfl) a.retry_count 0 none
            (by intro s hs; simp at hs) r0 hres
        have hatt := (attachErrorScreenshotPath_fields save i r0).2.2.2.2
        rw [hatt]
        have ha := h a (by simp)
        omega
      · exact ih (i + 1) (fun b hb => h b (by simp [hb])) r hr

/-- C1 counterexample: the claim fails as stated. The orchestrator appends a
result only under the `if result:` guard, and an action whose `retry_count`
is 0 runs the retry loop zero times, leaving `result = None`: the step is
silently dropped and the report is shorter than the input plan, even though
every driver call would have succeeded. -/
theorem c1_counterexample :
    zeroRetryAction.retry_count = 0 ∧
    execute_test [zeroRetryAction] allOkEnv unitDur noSave = [] ∧
    (execute_test [zeroRetryAction] allOkEnv unitDur noSave).length ≠
      ([zeroRetryAction] : List TestAction).length := by
  refine ⟨rfl, rfl, ?_⟩
  decide

/-- C1 amended: for every input list of actions in which each action's
`retry_count` is at least 1 (the dataclass default is 3), the orchestrator
produces exactly one result per submitted action, appended in input order
(the result list maps back to the action list by description and action
type), and this holds for every driver behavior — in particular a single
step's failure does not abort execution of the remaining steps. -/
theorem c1_orchestrator_complete_amended (actions : List TestAction)
    (env : Nat → Nat → ExecEnv) (dur : Nat → Nat → Nat)
    (save : Nat → Option String)
    (h : ∀ a ∈ actions, 1 ≤ a.retry_count) :
    (execute_test actions env dur save).map
        (fun r => (r.description, r.action_type)) =
      actions.map (fun a => (a.description, a.action_type)) :=
  execute_testAux_map env dur save actions 0 h

/-- Witness for the amended C1 on a concrete two-step plan whose second step
always fails: both steps are reported, in order, the first passed and the
second failed. -/
theorem c1_witness :
    (execute_test [navAction, failingClick] mixedEnv unitDur noSave).map
        (fun r => (r.description, r.action_type)) =
      [navAction, failingClick].map (fun a => (a.description, a.action_type)) ∧
    (execute_test [navAction, failingClick] mixedEnv unitDur noSave).map
        (fun r => r.status) = ["passed", "failed"] :=
  ⟨c1_orchestrator_complete_amended [navAction, failingClick] mixedEnv unitDur
      noSave (by decide), by decide⟩

/-- C5: the retry coordinator executes at most `retry_count` attempts, the
`attempt` field stamped into any final per-step result never exceeds the
action's retry limit, and — lifted to the orchestrator — if every submitted
action's retry limit is at most `L` then every reported result has
`attempt ≤ L`. -/
theorem c5_retry_limit (step : Nat → Except String StepResult)
    (a : TestAction) (actions : List TestAction) (env : Nat → Nat → ExecEnv)
    (dur : Nat → Nat → Nat) (save : Nat → Option String) (L : Nat)
    (hL : ∀ b ∈ actions, b.retry_count ≤ L) :
    (attemptLoop step a).attemptsMade ≤ a.retry_count ∧
    (∀ r, (attemptLoop step a).result = some r →
      r.attempt ≤ a.retry_count) ∧
    (∀ r ∈ execute_test actions env dur save, r.attempt ≤ L) := by
  refine ⟨attemptLoopAux_made_le step (mkFailResult a) a.retry_count 0 none,
    ?_, execute_testAux_attempt_le env dur save L actions 0 hL⟩
  intro r hr
  have := attemptLoopAux_attempt_le step (mkFailResult a)
    (fun m att => rfl) a.retry_count 0 none (by intro s hs; simp at hs) r hr
  omega

/-- Witness for C5 at a concrete always-failing click with a retry limit of
3: the loop makes at most 3 attempts and the recorded attempt number is at
most 3. -/
theorem c5_witness :
    (attemptLoop c6Step c6Action).attemptsMade ≤ c6Action.retry_count ∧
    ({ execute_action c6Action (c6Env 2) 1 with
        attempt := 3 } : StepResult).attempt ≤ c6Action.retry_count :=
  ⟨(c5_retry_limit c6Step c6Action [c6Action] (fun _ n => c6Env n) unitDur
      noSave 3 (by decide)).1,
   (c5_retry_limit c6Step c6Action [c6Action] (fun _ n => c6Env n) unitDur
      noSave 3 (by decide)).2.1 _ (by decide)⟩

/-- C6 counterexample: the claim fails as stated. On a concrete click whose
dispatch fails on every attempt, the retry loop runs all three attempts —
so failures occur at attempt numbers strictly below the retry limit — yet
the list of backoff sleeps performed is empty: no
`min(2^n * baseDelay, backoffCap)` sleep happens before the next attempt.
The backoff code exists only in the `except` branch of the loop, which is
unreachable because `execute_action` catches every exception and surfaces
failures as failed-status results. -/
theorem c6_counterexample :
    (attemptLoop c6Step c6Action).attemptsMade = 3 ∧
    (execute_action c6Action (c6Env 0) 1).status = "failed" ∧
    (execute_action c6Action (c6Env 1) 1).status = "failed" ∧
    (attemptLoop c6Step c6Action).sleeps = [] := by
  decide

/-- C6 amended: when an attempt fails it does so by returning a
failed-status result (the only failure mode, since `execute_action` catches
all exceptions), and the coordinator then retries immediately with no
backoff sleep — the `min(2^n, 10)` backoff lives only in the unreachable
exception branch. After `retry_count` failed attempts the loop stops and
the final result is the last attempt's failed result, carrying the last
error and the attempt count `retry_count`. -/
theorem c6_no_backoff_amended (a : TestAction) (envs : Nat → ExecEnv)
    (dur : Nat → Nat) (hrc : 1 ≤ a.retry_count)
    (hfail : ∀ n, (execute_action a (envs n) (dur n)).status ≠ "passed") :
    (attemptLoop (fun n => Except.ok (execute_action a (envs n) (dur n)))
        a).sleeps = [] ∧
    (attemptLoop (fun n => Except.ok (execute_action a (envs n) (dur n)))
        a).attemptsMade = a.retry_count ∧
    (∀ r, (attemptLoop (fun n => Except.ok (execute_action a (envs n) (dur n)))
        a).result = some r →
      r.status = "failed" ∧
      r.error = (execute_action a (envs (a.retry_count - 1))
        (dur (a.retry_count - 1))).error ∧
      r.attempt = a.retry_count) := by
  have h := attemptLoopAux_all_fail (fun n => execute_action a (envs n) (dur n))
    (mkFailResult a) hfail a.retry_count 0 none
  have hne : ¬ a.retry_count = 0 := by omega
  rw [if_neg hne] at h
  simp only [Nat.zero_add] at h
  have hmain : attemptLoop
      (fun n => Except.ok (execute_action a (envs n) (dur n))) a =
      ⟨some { execute_action a (envs (a.retry_count - 1))
                (dur (a.retry_count - 1)) with attempt := a.retry_count },
        [], a.retry_count⟩ := h
  refine ⟨by rw [hmain], by rw [hmain], ?_⟩
  intro r hr
  rw [hmain] at hr
  simp only [Option.some.injEq] at hr
  subst hr
  have hs := hfail (a.retry_count - 1)
  rcases (execute_action_cases a (envs (a.retry_count - 1))
      (dur (a.retry_count - 1))).1 with hp | hf
  · exact absurd hp hs
  · exact ⟨by simpa using hf, rfl, rfl⟩

/-- Witness for the amended C6 on the concrete always-failing click: no
backoff sleep is performed and all three attempts are used. -/
theorem c6_witness :
    (attemptLoop (fun n => Except.ok (execute_action c6Action (c6Env n) 1))
        c6Action).sleeps = [] ∧
    (attemptLoop (fun n => Except.ok (execute_action c6Action (c6Env n) 1))
        c6Action).attemptsMade = c6Action.retry_count :=
  ⟨(c6_no_backoff_amended c6Action c6Env (fun _ => 1) (by decide)
      (by intro n
          show (execute_action c6Action
            { dispatch := .err "intercepted", shotTry := .ok 1,
              shotRescue := some 2 } 1).status ≠ "passed"
          decide)).1,
   (c6_no_backoff_amended c6Action c6Env (fun _ => 1) (by decide)
      (by intro n
          show (execute_action c6Action
            { dispatch := .err "intercepted", shotTry := .ok 1,
              shotRescue := some 2 } 1).status ≠ "passed"
          decide)).2.1⟩

/-- Witness for C9 at a concrete unsupported action: status is "failed" and
the error is non-null. -/
theorem c9_witness :
    ((execute_action { action_type := "frobnicate" }
        { dispatch := .ok, shotTry := .ok 1, shotRescue := none } 5).status =
        "passed" ∨
      (execute_action { action_type := "frobnicate" }
        { dispatch := .ok, shotTry := .ok 1, shotRescue := none } 5).status =
        "failed") ∧
    (execute_action { action_type := "frobnicate" }
      { dispatch := .ok, shotTry := .ok 1, shotRescue := none } 5).duration = 5 ∧
    (execute_action { action_type := "frobnicate" }
      { dispatch := .ok, shotTry := .ok 1, shotRescue := none } 5).error ≠ none := by
  refine ⟨(c9_execute_action_total _ _ _).1, (c9_execute_action_total _ _ _).2.1, ?_⟩
  exact (c9_execute_action_total _ _ _).2.2 (by decide)

/-- C2 counterexample: the claim fails as stated. Hover is an action kind
other than Navigate, yet the smart selector generator returns the empty
candidate list for it: the generator only ever emits candidates for the
click and fill kinds (and even for click only when the description mentions
a button, link or menu). -/
theorem c2_counterexample :
    generate_smart_selectors "press the submit button" "hover" = [] ∧
    ("hover" : String) ≠ "navigate" :=
  ⟨rfl, by decide⟩

/-- C2 amended: the smart selector generator is a pure function of
`(target, kind)`, so its output order is deterministic; for the fill kind it
always returns a non-empty duplicate-free list, and for the click kind it
returns a non-empty duplicate-free list whenever the lower-cased description
contains "button"; for every kind other than click and fill it returns the
empty list (so the original non-emptiness claim holds only on this reduced
domain). Deduplication order is a separate matter: the resolver-side
consumer deduplicates with a Python `set()`, which does not preserve
first-seen order. -/
theorem c2_generator_amended (desc : String) :
    (generate_smart_selectors desc "fill" ≠ [] ∧
      (generate_smart_selectors desc "fill").Nodup) ∧
    (containsSubstr (pyLower desc) "button" = true →
      generate_smart_selectors desc "click" ≠ [] ∧
        (generate_smart_selectors desc "click").Nodup) ∧
    (∀ k : String, k ≠ "click" → k ≠ "fill" →
      generate_smart_selectors desc k = []) := by
  refine ⟨?_, ?_, ?_⟩
  · have hfill : generate_smart_selectors desc "fill" =
        fill_selectors (pyLower desc) := by
      unfold generate_smart_selectors
      rw [if_neg (by decide), if_pos rfl]
    rw [hfill]
    unfold fill_selectors
    split_ifs <;> exact ⟨by decide, by decide⟩
  · intro hb
    have hclick : generate_smart_selectors desc "click" =
        click_selectors (pyLower desc) := by
      unfold generate_smart_selectors
      rw [if_pos rfl]
    rw [hclick]
    unfold click_selectors
    rw [if_pos hb]
    split_ifs <;> exact ⟨by decide, by decide⟩
  · intro k hk1 hk2
    unfold generate_smart_selectors
    rw [if_neg hk1, if_neg hk2]

/-- Witness for the amended C2 at concrete inputs: a fill target gives a
non-empty duplicate-free list, a click-button target gives a non-empty
duplicate-free list, and a scroll target gives the empty list. -/
theorem c2_witness :
    (generate_smart_selectors "enter the email address" "fill" ≠ [] ∧
      (generate_smart_selectors "enter the email address" "fill").Nodup) ∧
    (generate_smart_selectors "click the login button" "click" ≠ [] ∧
      (generate_smart_selectors "click the login button" "click").Nodup) ∧
    generate_smart_selectors "click the login button" "scroll" = [] :=
  ⟨(c2_generator_amended "enter the email address").1,
   (c2_generator_amended "click the login button").2.1 (by decide),
   (c2_generator_amended "click the login button").2.2 "scroll" (by decide)
     (by decide)⟩

/-- C3: element resolution returns the first candidate in iteration order
that is both found and interactable. A candidate that is found with state
visible but then fails the post-scroll visible-and-enabled verification is
skipped, and resolution proceeds to later candidates rather than failing;
earlier non-interactable candidates cannot pre-empt a later interactable
one. The budget hypothesis says the deadline has not expired before the
winning candidate is reached. -/
theorem c3_resolver_first_interactable (env : ResolveEnv) (t e : Nat)
    (pre post : List String) (c : String)
    (hpre : ∀ d ∈ pre, goodCand env d = false)
    (hc : goodCand env c = true)
    (hbudget : e + costSum env pre ≤ t) :
    wait_for_element env t (pre ++ c :: post) e = .ok c := by
  simp only [goodCand, Bool.and_eq_true] at hc
  induction pre generalizing e with
  | nil =>
    simp only [costSum, List.map_nil, List.sum_nil, Nat.add_zero] at hbudget
    have he : ¬ t < e := by omega
    simp only [List.nil_append, wait_for_element]
    rw [if_neg he, if_pos hc.1, if_pos (by rw [Bool.and_eq_true]; exact hc.2)]
  | cons d pre ih =>
    have hd := hpre d (List.mem_cons_self d pre)
    have hcost : costSum env (d :: pre) = env.cost d + costSum env pre := by
      simp [costSum]
    rw [hcost] at hbudget
    have he : ¬ t < e := by omega
    simp only [List.cons_append, wait_for_element]
    rw [if_neg he]
    have hrec := ih (e + env.cost d)
      (fun x hx => hpre x (List.mem_cons_of_mem d hx)) (by omega)
    by_cases hf : (env.state d).found = true
    · rw [if_pos hf]
      have hv : ¬ ((env.state d).visible && (env.state d).enabled) = true := by
        intro hcontra
        have hgood : goodCand env d = true := by
          simp [goodCand, hf, hcontra]
        rw [hd] at hgood
        simp at hgood
      rw [if_neg hv]
      exact hrec
    · rw [if_neg hf]
      exact hrec

/-- Witness for C3 on the spec's own test scenario: two candidates, the
first visible but disabled, the second visible and enabled; the resolver
skips the first and returns the second. -/
theorem c3_witness :
    goodCand c3Env "first" = false ∧
    (c3Env.state "first").found = true ∧
    (c3Env.state "first").visible = true ∧
    (c3Env.state "first").enabled = false ∧
    wait_for_element c3Env 10000 ["first", "second"] 0 = .ok "second" :=
  ⟨by decide, by decide, by decide, by decide,
   c3_resolver_first_interactable c3Env 10000 0 ["first"] [] "second"
     (by decide) (by decide) (by decide)⟩

/-- When no strategy in the chain succeeds, the loop reports no success and
attempts every strategy. -/
theorem tryStrategiesAux_all_fail (l : List StratResult) :
    (∀ s ∈ l, s ≠ StratResult.success) →
    ∀ (n : Nat) (le : Option String),
      (tryStrategiesAux l n le).succeededAt = none ∧
      (tryStrategiesAux l n le).attempted = n + l.length := by
  induction l with
  | nil => intro _ n le; simp [tryStrategiesAux]
  | cons s rest ih =>
    intro h n le
    cases s with
    | success => exact absurd rfl (h .success (by simp))
    | failure m =>
      simp only [tryStrategiesAux]
      have hr := ih (fun x hx => h x (by simp [hx])) (n + 1) (some m)
      refine ⟨hr.1, ?_⟩
      rw [hr.2]
      simp only [List.length_cons]
      omega

/-- When the chain is failures followed by a success, the loop stops at the
success and attempts exactly the failing strategies plus the succeeding one. -/
theorem tryStrategiesAux_first_success (pre post : List StratResult) :
    (∀ s ∈ pre, s ≠ StratResult.success) →
    ∀ (n : Nat) (le : Option String),
      (tryStrategiesAux (pre ++ StratResult.success :: post) n le).succeededAt
        = some (n + pre.length + 1) ∧
      (tryStrategiesAux (pre ++ StratResult.success :: post) n le).attempted
        = n + pre.length + 1 := by
  induction pre with
  | nil => intro _ n le; simp [tryStrategiesAux]
  | cons s pre ih =>
    intro h n le
    cases s with
    | success => exact absurd rfl (h .success (by simp))
    | failure m =>
      simp only [List.cons_append, tryStrategiesAux, List.append_eq]
      have hr := ih (fun x hx => h x (by simp [hx])) (n + 1) (some m)
      constructor
      · rw [hr.1]
        congr 1
        simp only [List.length_cons]
        omega
      · rw [hr.2]
        simp only [List.length_cons]
        omega

/-- C4: click dispatch short-circuits at the first succeeding strategy. If
every strategy before some succeeding strategy throws, the dispatch succeeds
at that strategy, no later strategy is attempted (the attempted count equals
the position of the first success), and the overall click outcome is
success; the dispatch fails — with the `All click strategies failed`
exception — only when every strategy in the chain fails. -/
theorem c4_click_short_circuit (pre post : List StratResult)
    (hpre : ∀ s ∈ pre, s ≠ StratResult.success) :
    (try_click_strategies (pre ++ StratResult.success :: post)).succeededAt =
      some (pre.length + 1) ∧
    (try_click_strategies (pre ++ StratResult.success :: post)).attempted =
      pre.length + 1 ∧
    clickOutcome (pre ++ StratResult.success :: post) = .ok ∧
    (∀ l : List StratResult, (∀ s ∈ l, s ≠ StratResult.success) →
      clickOutcome l = .err "All click strategies failed") := by
  have h := tryStrategiesAux_first_success pre post hpre 0 none
  have h1 : (try_click_strategies
      (pre ++ StratResult.success :: post)).succeededAt =
      some (pre.length + 1) := by
    have := h.1
    simpa [try_click_strategies] using this
  refine ⟨h1, ?_, ?_, ?_⟩
  · have := h.2
    simpa [try_click_strategies] using this
  · unfold clickOutcome
    rw [h1]
  · intro l hl
    unfold clickOutcome try_click_strategies
    rw [(tryStrategiesAux_all_fail l hl 0 none).1]

/-- Witness for C4 on the spec's own scenario: the native click throws
`intercepted`, the synthetic pointer event succeeds, and the two remaining
strategies are never attempted. -/
theorem c4_witness :
    (try_click_strategies [StratResult.failure "intercepted",
        StratResult.success, StratResult.failure "late",
        StratResult.failure "later"]).succeededAt = some 2 ∧
    (try_click_strategies [StratResult.failure "intercepted",
        StratResult.success, StratResult.failure "late",
        StratResult.failure "later"]).attempted = 2 ∧
    clickOutcome [StratResult.failure "intercepted", StratResult.success,
        StratResult.failure "late", StratResult.failure "later"] = .ok :=
  ⟨(c4_click_short_circuit [.failure "intercepted"]
      [.failure "late", .failure "later"] (by decide)).1,
   (c4_click_short_circuit [.failure "intercepted"]
      [.failure "late", .failure "later"] (by decide)).2.1,
   (c4_click_short_circuit [.failure "intercepted"]
      [.failure "late", .failure "later"] (by decide)).2.2.1⟩

/-- For a navigate action the dispatch branch is the navigation driver call
itself. -/
theorem dispatchOutcome_navigate (a : TestAction) (env : ExecEnv)
    (ha : a.action_type = "navigate") :
    dispatchOutcome a env = env.dispatch := by
  unfold dispatchOutcome
  rw [ha]
  rw [if_neg (by decide), if_neg (by decide),
    if_neg (fun h => absurd h.1 (by decide))]

/-- C7: navigation uses a two-tier wait. If the strict tier (goto with
domcontentloaded plus the network-idle wait) fails and the loose load-event
tier succeeds, `_execute_navigate` returns normally, so the navigate step is
recorded Passed with no error; and a navigation error is raised only when
the strict tier failed and the loose tier also failed (the raised error
being the loose tier's). -/
theorem c7_navigate_two_tier (nenv : NavEnv) (a : TestAction) (env : ExecEnv)
    (d : Nat)
    (hstrict : nenv.strictGoto ≠ .ok ∨ nenv.networkIdle ≠ .ok)
    (hloose : nenv.looseGoto = .ok)
    (ha : a.action_type = "navigate")
    (hshot : a.screenshot = false)
    (hdisp : env.dispatch = execute_navigate nenv) :
    execute_navigate nenv = .ok ∧
    (execute_action a env d).status = "passed" ∧
    (execute_action a env d).error = none ∧
    (∀ (n2 : NavEnv) (m : String), execute_navigate n2 = .err m →
      (n2.strictGoto ≠ .ok ∨ n2.networkIdle ≠ .ok) ∧
        n2.looseGoto = .err m) := by
  have hnav : execute_navigate nenv = .ok := by
    unfold execute_navigate
    rcases hstrict with h | h
    · cases hg : nenv.strictGoto with
      | ok => exact absurd hg h
      | err m => exact hloose
    · cases hg : nenv.strictGoto with
      | ok =>
        cases hn : nenv.networkIdle with
        | ok => exact absurd hn h
        | err m => exact hloose
      | err m => exact hloose
  have hd2 : dispatchOutcome a env = .ok := by
    rw [dispatchOutcome_navigate a env ha, hdisp, hnav]
  refine ⟨hnav, ?_, ?_, ?_⟩
  · simp [execute_action, hd2, hshot]
  · simp [execute_action, hd2, hshot]
  · intro n2 m hm
    unfold execute_navigate at hm
    cases hg : n2.strictGoto with
    | ok =>
      rw [hg] at hm
      cases hn : n2.networkIdle with
      | ok => rw [hn] at hm; exact absurd hm (by simp)
      | err m2 => exact ⟨Or.inr (by simp [hn]), by rw [hn] at hm; exact hm⟩
    | err m2 => exact ⟨Or.inl (by simp [hg]), by rw [hg] at hm; exact hm⟩

/-- Witness for C7 at a concrete navigate whose strict tier times out at the
network-idle wait and whose loose tier succeeds: navigation returns
normally and the step is Passed with no error. -/
theorem c7_witness :
    execute_navigate c7Nav = .ok ∧
    (execute_action c7Action c7ExecEnv 2).status = "passed" ∧
    (execute_action c7Action c7ExecEnv 2).error = none :=
  ⟨(c7_navigate_two_tier c7Nav c7Action c7ExecEnv 2 (Or.inr (by decide))
      (by decide) rfl rfl rfl).1,
   (c7_navigate_two_tier c7Nav c7Action c7ExecEnv 2 (Or.inr (by decide))
      (by decide) rfl rfl rfl).2.1,
   (c7_navigate_two_tier c7Nav c7Action c7ExecEnv 2 (Or.inr (by decide))
      (by decide) rfl rfl rfl).2.2.1⟩

/-- C8 counterexample: the claim fails as stated. The success-path result
screenshot (`result[screenshot] = await self.page.screenshot(...)`,
line 478) runs inside the main `try`, so when the dispatched action
succeeds but the capture raises, the outer `except` turns the step into a
Failed result whose error is the capture error: a failing capture changed
the step's recorded outcome. -/
theorem c8_counterexample :
    dispatchOutcome c8Action c8Env = .ok ∧
    (execute_action c8Action c8Env 4).status = "failed" ∧
    (execute_action c8Action c8Env 4).error = some "screenshot boom" := by
  decide

/-- The reported status and error of every step are unchanged by the
behavior of the orchestrator-level error-screenshot saver. -/
theorem execute_testAux_save_invariant (env : Nat → Nat → ExecEnv)
    (dur : Nat → Nat → Nat) (save1 save2 : Nat → Option String) :
    ∀ (actions : List TestAction) (i : Nat),
      (execute_testAux env dur save1 i actions).map
          (fun r => (r.status, r.error)) =
        (execute_testAux env dur save2 i actions).map
          (fun r => (r.status, r.error)) := by
  intro actions
  induction actions with
  | nil => intro i; rfl
  | cons a rest ih =>
    intro i
    simp only [execute_testAux]
    cases hres : (attemptLoop (stepFn a env dur i) a).result with
    | none => exact ih (i + 1)
    | some r =>
      simp only [List.map_cons]
      have f1 := attachErrorScreenshotPath_fields save1 i r
      have f2 := attachErrorScreenshotPath_fields save2 i r
      rw [f1.2.2.1, f1.2.2.2.1, f2.2.2.1, f2.2.2.2.1, ih (i + 1)]

/-- C8 amended: exceptions raised while capturing failure-path diagnostics
are swallowed and never replace the original failure. A step whose dispatch
fails with error `m` is recorded Failed with exactly that error, for every
behavior of the rescue screenshot capture (including the capture raising);
and at the orchestrator level the reported status and error of every step
are independent of the error-screenshot saver's behavior. The exception is
the success-path result capture, which runs inside the main `try` (see the
counterexample): its failure converts a passed step into a Failed one. -/
theorem c8_diagnostics_amended (a : TestAction) (env : ExecEnv) (d : Nat)
    (m : String) (h : dispatchOutcome a env = .err m) :
    (execute_action a env d).status = "failed" ∧
    (execute_action a env d).error = some m ∧
    (∀ (actions : List TestAction) (env2 : Nat → Nat → ExecEnv)
        (dur : Nat → Nat → Nat) (save1 save2 : Nat → Option String),
      (execute_test actions env2 dur save1).map
          (fun r => (r.status, r.error)) =
        (execute_test actions env2 dur save2).map
          (fun r => (r.status, r.error))) := by
  refine ⟨?_, ?_, ?_⟩
  · simp [execute_action, h]
  · simp [execute_action, h]
  · intro actions env2 dur save1 save2
    exact execute_testAux_save_invariant env2 dur save1 save2 actions 0

/-- Witness for the amended C8: a failed click whose rescue screenshot also
raises still reports the original ElementNotFound error. -/
theorem c8_witness :
    (execute_action failingClick c8FailEnv 3).status = "failed" ∧
    (execute_action failingClick c8FailEnv 3).error = some "ElementNotFound" :=
  ⟨(c8_diagnostics_amended failingClick c8FailEnv 3 "ElementNotFound"
      (by decide)).1,
   (c8_diagnostics_amended failingClick c8FailEnv 3 "ElementNotFound"
      (by decide)).2.1⟩

/-- C10: action-plan optimization expands the generated plan before
execution. The optimized plan is exactly the per-action expansion that
inserts the fixed 2-second Wait immediately after each Navigate and a Hover
on the same selector immediately before each Click with a (truthy)
selector, keeping every other action unchanged in its original relative
order; consequently the optimized length is the original length plus one
per Navigate or Click-with-selector, and it is never shorter than the
input. -/
theorem c10_optimize_expansion (as : List TestAction) :
    optimize_actions as = as.flatMap expand_action_per_plan ∧
    (optimize_actions as).length = as.length +
      as.countP (fun a => decide (a.action_type = "navigate" ∨
        (a.action_type = "click" ∧ truthy a.selector = true))) ∧
    as.length ≤ (optimize_actions as).length := by
  have hmain : optimize_actions as = as.flatMap expand_action_per_plan ∧
      (optimize_actions as).length = as.length +
        as.countP (fun a => decide (a.action_type = "navigate" ∨
          (a.action_type = "click" ∧ truthy a.selector = true))) := by
    induction as with
    | nil => simp [optimize_actions]
    | cons a rest ih =>
      by_cases h1 : a.action_type = "navigate"
      · constructor
        · simp only [optimize_actions, if_pos h1, List.flatMap_cons,
            expand_action_per_plan, ih.1]
          simp [expand_action_per_plan, h1]
        · simp only [optimize_actions, if_pos h1, List.length_cons,
            List.countP_cons, ih.2]
          simp [h1]
          omega
      · by_cases h2 : a.action_type = "click" ∧ truthy a.selector
        · constructor
          · simp only [optimize_actions, if_neg h1, if_pos h2,
              List.flatMap_cons, expand_action_per_plan, ih.1]
            simp [expand_action_per_plan, h1, h2]
          · simp only [optimize_actions, if_neg h1, if_pos h2,
              List.length_cons, List.countP_cons, ih.2]
            simp [h1, h2.1, h2.2]
            omega
        · constructor
          · simp only [optimize_actions, if_neg h1, if_neg h2,
              List.flatMap_cons, expand_action_per_plan, ih.1]
            simp [expand_action_per_plan, h1, h2]
          · simp only [optimize_actions, if_neg h1, if_neg h2,
              List.length_cons, List.countP_cons, ih.2]
            have hfalse : (a.action_type = "navigate" ∨
                (a.action_type = "click" ∧ truthy a.selector = true)) = False := by
              simp only [eq_iff_iff, iff_false]
              rintro (hx | hx)
              · exact h1 hx
              · exact h2 ⟨hx.1, hx.2⟩
            simp [hfalse]
            omega
  exact ⟨hmain.1, hmain.2, by rw [hmain.2]; omega⟩
